import Mathlib

/-!
Shallow embedding of the request/response bridge of pankgeorg/Marily.jl
(the Go HTTP server variants under src/asgi and src/unnamed) together with
proofs of the frozen claims about it.

The repository implements the same bridge several times with small
variations:

* `src/asgi/server.go` (first document): direct-callback variant with a
  watchdog goroutine;
* `src/asgi/server.go` (second document) and `src/unnamed/part_000` /
  `src/unnamed/part_001`: pull-queue / push-queue variants with a
  `pendingReqs` correlation map of capacity-one response channels;
* `src/asgi/server.go` (third document): routed direct-callback variant
  registering per-path callbacks on a global `http.ServeMux`.

Go maps are embedded as association lists with explicit get/set/delete
operations; Go buffered channels are embedded as a list of buffered
messages plus a `closed` flag, with the Go semantics that a send on a
closed channel panics and a send on a full channel blocks.  Concurrency
is embedded by explicit sequencing of the atomic steps the claims talk
about (each step in the source holds the corresponding mutex).
-/

namespace Marily

/-- One header pair list entry, and general string-keyed association-list
operations embedding Go map primitives.  `mapGet` embeds `m[k]` lookup
(`v, ok := m[k]`), returning the value of the single entry with that key. -/
def mapGet {α : Type} : List (String × α) → String → Option α
  | [], _ => none
  | p :: l, k => if p.1 = k then some p.2 else mapGet l k

/-- Embeds Go map assignment `m[k] = v` on a key that is already present:
the entry for `k` is replaced in place. -/
def mapSet {α : Type} : List (String × α) → String → α → List (String × α)
  | [], _, _ => []
  | p :: l, k, v => if p.1 = k then (k, v) :: mapSet l k v else p :: mapSet l k v

/-- Embeds Go map assignment `m[k] = v` in general: replace the entry if the
key is present, otherwise add a fresh entry. -/
def mapPut {α : Type} (l : List (String × α)) (k : String) (v : α) : List (String × α) :=
  if (mapGet l k).isSome then mapSet l k v else (k, v) :: l

/-- Embeds Go `delete(m, k)`: the entry for `k` is removed. -/
def mapDel {α : Type} : List (String × α) → String → List (String × α)
  | [], _ => []
  | p :: l, k => if p.1 = k then mapDel l k else p :: mapDel l k

/-- ASGIResponse (src/asgi/server.go lines 60-65): the response data submitted
from the Julia side, keyed by the request id of the originating event. -/
structure ASGIResponse where
  requestId : String
  status : Int
  headers : List (String × List String)
  body : List UInt8
deriving DecidableEq, Repr

/-- A Pending Slot: one entry of the `pendingReqs` correlation map.  It embeds
a Go `chan ASGIResponse` of capacity one (`make(chan ASGIResponse, 1)`,
src/asgi/server.go line 498): `buf` is the list of buffered messages and
`closed` records whether `close` has been called on the channel. -/
structure Slot where
  buf : List ASGIResponse
  closed : Bool
deriving DecidableEq, Repr

/-- A freshly made response channel: empty, open. -/
def emptySlot : Slot := ⟨[], false⟩

/-- The ASGI scope map built by createASGIEvent (src/asgi/events.go lines
37-49), with the fixed keys the source puts into `scope`. -/
structure ASGIScope where
  type : String
  asgiVersion : String
  asgiSpecVersion : String
  httpVersion : String
  method : String
  scheme : String
  path : String
  queryString : String
  rootPath : String
  headers : List (List String)
  client : List String
  server : List String
deriving DecidableEq, Repr

/-- The ASGI message map built by createASGIEvent (src/asgi/events.go lines
52-55). -/
structure ASGIMessage where
  body : List UInt8
  moreBody : Bool
deriving DecidableEq, Repr

/-- ASGIEvent (src/asgi/server.go lines 51-57): the immutable event envelope
handed to the Julia side.  `time` embeds the `time.Time` field as
nanoseconds. -/
structure ASGIEvent where
  type : String
  requestId : String
  scope : ASGIScope
  message : ASGIMessage
  time : Nat
deriving DecidableEq, Repr

/-- Server state of the pull-queue variant (src/asgi/server.go second
document, globals at lines 317-332): whether `server != nil`, the
`pendingReqs` correlation map, and the `events` slice awaiting GetEvents. -/
structure ServerState where
  serverRunning : Bool
  pendingReqs : List (String × Slot)
  events : List ASGIEvent
deriving DecidableEq, Repr

/-- Result of SubmitResponse.  `ok` is the string "Response submitted
successfully"; `noPending id` the string "No pending request with ID: id";
`panicSendClosed` a send on a closed channel (a Go runtime panic);
`blockedForever` a send on a full capacity-one channel with no receiver. -/
inductive SubmitResult
  | ok
  | noPending (id : String)
  | panicSendClosed
  | blockedForever
deriving DecidableEq, Repr

/-- Embeds SubmitResponse (src/asgi/server.go lines 452-474, identically
src/unnamed/part_000 lines 175-197 and src/unnamed/part_001 lines 171-193):
look up `pendingReqs[response.RequestId]`; if absent, return
"No pending request with ID: ..." and leave all state untouched; otherwise
send the response on the slot's capacity-one channel. -/
def SubmitResponse (st : ServerState) (resp : ASGIResponse) :
    ServerState × SubmitResult :=
  match mapGet st.pendingReqs resp.requestId with
  | none => (st, .noPending resp.requestId)
  | some slot =>
      if slot.closed then (st, .panicSendClosed)
      else if slot.buf.length < 1 then
        ({ st with
            pendingReqs :=
              mapSet st.pendingReqs resp.requestId { slot with buf := slot.buf ++ [resp] } },
          .ok)
      else (st, .blockedForever)

/-- Embeds the registration phase of handleRequest in the pull-queue variant
(src/asgi/server.go lines 494-511): make a fresh capacity-one response
channel, store it under the generated request id in `pendingReqs`, and
append the built event to the `events` slice. -/
def handleRequestRegister (st : ServerState) (id : String) (ev : ASGIEvent) :
    ServerState :=
  { st with
      pendingReqs := mapPut st.pendingReqs id emptySlot
      events := st.events ++ [ev] }

/-- Embeds the success arm of handleRequest's select (src/asgi/server.go
lines 515-531): `response := <-respChan` followed by
`delete(pendingReqs, requestId)`; returns the received response and the
state after the delete, or `none` when the channel has nothing buffered
(the handler is still blocked). -/
def waiterResolve (st : ServerState) (id : String) :
    Option (ASGIResponse × ServerState) :=
  match mapGet st.pendingReqs id with
  | some slot =>
      match slot.buf with
      | r :: _ => some (r, { st with pendingReqs := mapDel st.pendingReqs id })
      | [] => none
  | none => none

/-- Embeds the timeout arm of handleRequest's select (src/asgi/server.go
lines 533-541): `delete(pendingReqs, requestId); close(respChan)` under
`pendingMu`, after which the closed channel is no longer reachable from the
correlation map. -/
def waiterTimeout (st : ServerState) (id : String) : ServerState :=
  { st with pendingReqs := mapDel st.pendingReqs id }

/-- Embeds StopServer of the pull-queue variant (src/asgi/server.go lines
392-430, identically src/unnamed/part_000 lines 113-151).  The boolean
input records whether `server.Shutdown(ctx)` exceeded its 5-second grace
context and returned an error: in that case StopServer returns the error
string immediately, before the loop that closes and deletes the pending
request channels and before `server = nil`.  Only on a successful shutdown
are all pending slots closed and removed. -/
def StopServer (st : ServerState) (shutdownTimedOut : Bool) : ServerState × String :=
  if st.serverRunning = false then (st, "Server is not running")
  else if shutdownTimedOut then
    (st, "Error shutting down server: context deadline exceeded")
  else ({ st with serverRunning := false, pendingReqs := [] }, "Server stopped")

/-- A Go buffered channel of `*C.char` values as used by the direct-callback
variant (`responseChan := make(chan *C.char, 1)`, src/asgi/server.go line
209); `none` stands for a NULL result pointer. -/
structure CChan where
  buf : List (Option String)
  cap : Nat
  closed : Bool
deriving DecidableEq, Repr

/-- Outcome of a Go channel send: it succeeds when the channel is open with
buffer space, panics when the channel is closed, and blocks when the buffer
is full. -/
inductive SendOutcome
  | sent (c : CChan)
  | panicSendOnClosed
  | wouldBlock
deriving DecidableEq, Repr

/-- Go channel send semantics for the buffered response channel. -/
def chanSend (c : CChan) (v : Option String) : SendOutcome :=
  if c.closed then .panicSendOnClosed
  else if c.buf.length < c.cap then .sent { c with buf := c.buf ++ [v] }
  else .wouldBlock

/-- Go `close(ch)`. -/
def chanClose (c : CChan) : CChan := { c with closed := true }

/-- The fresh response channel made in handleRequest of the direct-callback
variant (src/asgi/server.go line 209): capacity one, empty, open. -/
def responseChan0 : CChan := ⟨[], 1, false⟩

/-- An HTTP reply written by the Go handler to its client. -/
structure HTTPReply where
  status : Nat
  body : String
deriving DecidableEq, Repr

/-- Embeds the timeout arm of the direct-callback select (src/asgi/server.go
lines 222-227): the watchdog fires, the handler executes
`close(responseChan)` and replies 504 "Request processing timed out",
while the callback goroutine is still running. -/
def watchdogTimeout (c : CChan) : CChan × HTTPReply :=
  (chanClose c, ⟨504, "Request processing timed out"⟩)

/-- Embeds the callback goroutine's delivery (src/asgi/server.go lines
213-216): `responseChan <- result`, executed whenever
`C.callEventCallback` eventually returns, regardless of what the waiting
handler has done to the channel in the meantime. -/
def lateCallbackSend (c : CChan) (result : Option String) : SendOutcome :=
  chanSend c result

/-- The admission semaphore capacity, `maxConcurrentRequests`
(src/asgi/server.go line 28). -/
def maxConcurrentRequests : Nat := 1000

/-- An operation on the counting semaphore `requestSemaphore`: a request
either tries to put a token in (`requestSemaphore <- struct\x7b\x7d\x7b\x7d`) or takes
its token back out (`<-requestSemaphore`). -/
inductive SemOp
  | acquire
  | release
deriving DecidableEq, Repr

/-- One step of the semaphore occupancy: an acquire succeeds only when the
buffered channel has space (`occ < cap`); an acquire against a full
semaphore leaves occupancy unchanged (the request is turned away with 503
after its admission timeout); a release removes one token. -/
def semStep (cap : Nat) (occ : Nat) : SemOp → Nat
  | .acquire => if occ < cap then occ + 1 else occ
  | .release => occ - 1

/-- Semaphore occupancy after a sequence of operations starting from the
fresh semaphore made at StartServer (`make(chan struct\x7b\x7d, maxConcurrentRequests)`). -/
def semRun (cap : Nat) (ops : List SemOp) : Nat := ops.foldl (semStep cap) 0

/-- Outcome of the admission gate at the top of handleRequest
(src/asgi/server.go lines 162-177 and src/unnamed/part_000 lines 200-215):
either the token send succeeds and the request proceeds holding one more
token, or the 5-second timeout fires against a still-full semaphore and the
handler replies 503 without proceeding. -/
inductive GatedOutcome
  | admitted (occ : Nat)
  | capacityExceeded (status : Nat) (body : String)
deriving DecidableEq, Repr

/-- Embeds the admission select of the gated variants (src/asgi/server.go
lines 162-177). -/
def gatedAdmission (cap occ : Nat) : GatedOutcome :=
  if occ < cap then .admitted (occ + 1)
  else .capacityExceeded 503 "Server is at capacity, please try again later"

/-- Capacity of the push-queue buffered event channel
(`eventsCh = make(chan ASGIEvent, 10000)`, src/unnamed/part_001 line 51). -/
def eventsChCap : Nat := 10000

/-- Embeds the event-enqueue step of handleRequest in the push-queue variant
(src/unnamed/part_001 lines 211-225): a non-blocking send on `eventsCh`;
when the buffer is full, the oldest buffered event is received and dropped
and the new event is then sent into the freed space. -/
def pushEvent (cap : Nat) (buf : List ASGIEvent) (e : ASGIEvent) : List ASGIEvent :=
  if buf.length < cap then buf ++ [e] else buf.drop 1 ++ [e]

/-- Embeds handleRequest of the push-queue variant (src/unnamed/part_001
lines 196-225) up to the wait on the response channel.  This variant has no
`requestSemaphore` at all: the request is registered in `pendingReqs` and
handed off into `eventsCh` unconditionally, without acquiring any admission
token. -/
def part001_handleRequest_handoff (st : ServerState) (id : String) (ev : ASGIEvent) :
    ServerState :=
  { st with
      pendingReqs := mapPut st.pendingReqs id emptySlot
      events := pushEvent eventsChCap st.events ev }

/-- Embeds Go `net/http` ServeMux registration as used by the routed
variant: `ServeMux.HandleFunc(pattern, handler)` panics when the pattern is
empty or already registered ("http: multiple registrations for ...").
Handlers are identified by an opaque numeric reference; `none` is the
panic. -/
def muxHandleFunc (m : List (String × Nat)) (pat : String) (h : Nat) :
    Option (List (String × Nat)) :=
  if pat = "" then none
  else if (mapGet m pat).isSome then none
  else some ((pat, h) :: m)

/-- Embeds RegisterEventCallback of the routed direct-callback variant
(src/asgi/server.go lines 862-870): it calls
`globalMux.HandleFunc(pathStr, handleRequestWithCallback(callback))` and
returns "Event callback registered for path: ..."; `none` is the ServeMux
duplicate-registration panic. -/
def RegisterEventCallback (mux : List (String × Nat)) (path : String) (cb : Nat) :
    Option (List (String × Nat) × String) :=
  (muxHandleFunc mux path cb).map
    (fun m => (m, "Event callback registered for path: " ++ path))

/-- Embeds the probe loop of GetConcurrentRequests (src/asgi/server.go lines
139-159 and 932-952): for `maxConcurrentRequests` iterations, try a
non-blocking token send on the semaphore and count the successes.  The
`break` in the default arm only leaves the inner select, so the loop always
runs all `cap` iterations; an iteration against a full semaphore changes
nothing.  Returns the number of probe tokens added and the resulting
occupancy. -/
def gcrProbe (cap : Nat) : Nat → Nat → Nat × Nat
  | 0, occ => (0, occ)
  | i + 1, occ =>
      if occ < cap then
        let r := gcrProbe cap i (occ + 1)
        (r.1 + 1, r.2)
      else gcrProbe cap i occ

/-- Embeds GetConcurrentRequests (src/asgi/server.go lines 139-159): probe
the free capacity by filling the semaphore, take the probe tokens back out,
and report `inUse = cap - available` together with the final semaphore
occupancy. -/
def GetConcurrentRequests (cap occ : Nat) : Nat × Nat :=
  let r := gcrProbe cap cap occ
  (cap - r.1, r.2 - r.1)

/-- The report string "inUse/cap concurrent requests active" built at
src/asgi/server.go line 158. -/
def gcrMessage (cap occ : Nat) : String :=
  toString (GetConcurrentRequests cap occ).1 ++ "/" ++ toString cap
    ++ " concurrent requests active"

/-- The raw inbound request as the event builder reads it: the fields of
`*http.Request` consumed by createASGIEvent (src/asgi/events.go).
`body = none` embeds a nil `r.Body`. -/
structure HTTPRequest where
  method : String
  proto : String
  urlPath : String
  rawQuery : String
  tls : Bool
  headers : List (String × List String)
  host : String
  remoteAddr : String
  body : Option (List UInt8)
deriving DecidableEq, Repr

/-- Embeds getScheme (src/asgi/events.go lines 67-72). -/
def getScheme (r : HTTPRequest) : String := if r.tls then "https" else "http"

/-- Embeds getHeadersList (src/asgi/events.go lines 106-116): every
name/value pair of the header map becomes a two-element list, and a final
["host", r.Host] entry is appended.  The Go `range` over the map
`r.Header` visits the entries in an order the runtime randomizes anew on
every range statement, so the visiting order is an explicit input `iter`:
the request's header entries in whatever order this particular call
enumerates them (a permutation of the map's entries). -/
def getHeadersList (iter : List (String × List String)) (host : String) :
    List (List String) :=
  (iter.foldr (fun p acc => p.2.map (fun v => [p.1, v]) ++ acc) [])
    ++ [["host", host]]

/-- Embeds splitHostPort (src/asgi/events.go lines 97-103), whose
implementation is a stub that always returns ("localhost", "80"). -/
def splitHostPort (_hostport : String) : String × String := ("localhost", "80")

/-- Embeds getClientInfo (src/asgi/events.go lines 84-87). -/
def getClientInfo (r : HTTPRequest) : List String :=
  [(splitHostPort r.remoteAddr).1, (splitHostPort r.remoteAddr).2]

/-- Embeds getServerInfo (src/asgi/events.go lines 90-94). -/
def getServerInfo (_r : HTTPRequest) : List String := ["localhost", "80"]

/-- Embeds the body read in createASGIEvent (src/asgi/events.go lines
25-34): one `Read` call into a zeroed 1 MiB buffer.  A stream Read may
return any byte count up to min(body length, 1 MiB), so the count `n` this
particular call's Read returns is an explicit input; the buffer is
truncated to the first `n` bytes only when `n > 0`, so a read returning 0
leaves the whole zeroed 1 MiB buffer in place.  A nil body is not read at
all. -/
def readBody : Option (List UInt8) → Nat → List UInt8
  | none, _ => []
  | some bs, n => if 0 < n then bs.take n else List.replicate 1048576 0

/-- Embeds createASGIEvent (src/asgi/events.go lines 16-64): build the
scope and message from the raw request and stamp the event with the
request id and the current time.  The quantities chosen by the runtime at
each call are explicit inputs: `now` is the `time.Now()` reading, `iter`
the order in which this call's `range r.Header` visits the header map
entries, and `n` the byte count returned by the single body Read. -/
def createASGIEvent (r : HTTPRequest) (requestId : String) (now : Nat)
    (iter : List (String × List String)) (n : Nat) : ASGIEvent :=
  { type := "http.request"
    requestId := requestId
    scope :=
      { type := "http"
        asgiVersion := "3.0"
        asgiSpecVersion := "2.1"
        httpVersion := r.proto
        method := r.method
        scheme := getScheme r
        path := r.urlPath
        queryString := r.rawQuery
        rootPath := ""
        headers := getHeadersList iter r.host
        client := getClientInfo r
        server := getServerInfo r }
    message := { body := readBody r.body n, moreBody := false }
    time := now }

/-- A sample event used as concrete input in witnesses. -/
def ev0 : ASGIEvent :=
  ⟨"http.request", "1-1",
    ⟨"http", "3.0", "2.1", "HTTP/1.1", "GET", "http", "/", "", "", [],
      ["localhost", "80"], ["localhost", "80"]⟩,
    ⟨[], false⟩, 0⟩

/-- A sample raw request used as concrete input in witnesses; its header
map holds two entries. -/
def req0 : HTTPRequest :=
  ⟨"GET", "HTTP/1.1", "/", "", false,
    [("Content-Type", ["text/plain"]), ("Accept", ["*"])],
    "localhost:8080", "127.0.0.1:5555", some [104, 105]⟩

/-- The entries of req0's header map visited in the opposite order: a
second legitimate outcome of `range r.Header` for the same request. -/
def req0HeadersSwapped : List (String × List String) :=
  [("Accept", ["*"]), ("Content-Type", ["text/plain"])]

/-- A sample response with request id "1-1", status 200. -/
def resp200 : ASGIResponse := ⟨"1-1", 200, [], []⟩

/-- A second sample response with request id "1-1", status 201. -/
def resp201 : ASGIResponse := ⟨"1-1", 201, [], []⟩

/-- A sample server state holding one pending slot for request id "1-1". -/
def stOnePending : ServerState := ⟨true, [("1-1", emptySlot)], []⟩

/-- A sample running server state with no pending slots and no events. -/
def stEmpty : ServerState := ⟨true, [], []⟩

/-- A sample response whose request id "9-9" was never registered. -/
def respUnknown : ASGIResponse := ⟨"9-9", 200, [], []⟩

/-!
Helper lemmas about the embedded Go map and buffer operations, shared by
the claim theorems below.
-/

theorem mapGet_mapDel_self {α : Type} (l : List (String × α)) (k : String) :
    mapGet (mapDel l k) k = none := by
  induction l with
  | nil => rfl
  | cons p l ih =>
      by_cases h : p.1 = k
      · simp [mapDel, h, ih]
      · simp [mapDel, mapGet, h, ih]

theorem mapDel_of_get_none {α : Type} (l : List (String × α)) (k : String)
    (h : mapGet l k = none) : mapDel l k = l := by
  induction l with
  | nil => rfl
  | cons p l ih =>
      by_cases hp : p.1 = k
      · simp [mapGet, hp] at h
      · simp [mapGet, hp] at h
        simp [mapDel, hp, ih h]

theorem mapSet_of_get_none {α : Type} (l : List (String × α)) (k : String) (v : α)
    (h : mapGet l k = none) : mapSet l k v = l := by
  induction l with
  | nil => rfl
  | cons p l ih =>
      by_cases hp : p.1 = k
      · simp [mapGet, hp] at h
      · simp [mapGet, hp] at h
        simp [mapSet, hp, ih h]

theorem mapGet_replicate_ne {α : Type} (n : Nat) (k k' : String) (v : α)
    (h : k ≠ k') : mapGet (List.replicate n (k, v)) k' = none := by
  induction n with
  | zero => rfl
  | succ n ih => simp [List.replicate_succ, mapGet, h, ih]

theorem foldl_pushEvent_of_le (cap : Nat) :
    ∀ (es b : List ASGIEvent), b.length + es.length ≤ cap →
      es.foldl (pushEvent cap) b = b ++ es := by
  intro es
  induction es with
  | nil => intro b _; simp
  | cons e es ih =>
      intro b h
      simp only [List.length_cons] at h
      have hb : b.length < cap := by omega
      rw [List.foldl_cons]
      have hpe : pushEvent cap b e = b ++ [e] := by simp [pushEvent, hb]
      rw [hpe, ih (b ++ [e]) (by simp; omega)]
      simp

theorem semFoldl_le (cap : Nat) :
    ∀ (ops : List SemOp) (occ : Nat), occ ≤ cap →
      ops.foldl (semStep cap) occ ≤ cap := by
  intro ops
  induction ops with
  | nil => intro occ h; simpa
  | cons op ops ih =>
      intro occ h
      rw [List.foldl_cons]
      apply ih
      cases op
      · simp only [semStep]
        split <;> omega
      · simp only [semStep]
        omega

theorem foldr_headerPairs_perm {l₁ l₂ : List (String × List String)}
    (h : l₁.Perm l₂) :
    (l₁.foldr (fun p acc => p.2.map (fun v => [p.1, v]) ++ acc) []).Perm
      (l₂.foldr (fun p acc => p.2.map (fun v => [p.1, v]) ++ acc) []) := by
  induction h with
  | nil => exact List.Perm.refl _
  | cons x _ ih =>
      simp only [List.foldr_cons]
      exact ih.append_left (x.2.map (fun v => [x.1, v]))
  | swap x y l =>
      simp only [List.foldr_cons]
      rw [← List.append_assoc, ← List.append_assoc]
      exact List.perm_append_comm.append_right _
  | trans _ _ ih₁ ih₂ => exact ih₁.trans ih₂

theorem getHeadersList_perm {iter₁ iter₂ : List (String × List String)}
    (h : iter₁.Perm iter₂) (host : String) :
    (getHeadersList iter₁ host).Perm (getHeadersList iter₂ host) :=
  (foldr_headerPairs_perm h).append_right _

theorem gcrProbe_spec (cap : Nat) :
    ∀ (i occ : Nat), gcrProbe cap i occ = (min i (cap - occ), occ + min i (cap - occ)) := by
  intro i
  induction i with
  | zero => intro occ; simp [gcrProbe]
  | succ i ih =>
      intro occ
      by_cases h : occ < cap
      · simp only [gcrProbe, if_pos h, ih (occ + 1)]
        rw [Prod.mk.injEq]
        constructor <;> omega
      · simp only [gcrProbe, if_neg h, ih occ]
        rw [Prod.mk.injEq]
        constructor <;> omega

/-- C1: once a request's pending slot has been successfully resolved (the
response was submitted, received by the waiting handler, and the slot
deleted), a second SubmitResponse with the same request id returns the
"No pending request with ID" error and leaves the state — in particular the
original waiter's channel — completely unchanged, so no second response is
ever delivered. -/
theorem submitResponse_second_after_resolve
    (st₀ : ServerState) (id : String) (ev : ASGIEvent) (r₁ r₂ : ASGIResponse)
    (hfresh : mapGet st₀.pendingReqs id = none)
    (h₁ : r₁.requestId = id) (h₂ : r₂.requestId = id) :
    (SubmitResponse (handleRequestRegister st₀ id ev) r₁).2 = .ok ∧
    waiterResolve (SubmitResponse (handleRequestRegister st₀ id ev) r₁).1 id
      = some (r₁, { st₀ with events := st₀.events ++ [ev] }) ∧
    SubmitResponse { st₀ with events := st₀.events ++ [ev] } r₂
      = ({ st₀ with events := st₀.events ++ [ev] }, .noPending id) := by
  subst h₁
  refine ⟨?_, ?_, ?_⟩
  · simp [handleRequestRegister, mapPut, hfresh, SubmitResponse, mapGet, emptySlot]
  · simp [handleRequestRegister, mapPut, hfresh, SubmitResponse, mapGet, emptySlot,
      waiterResolve, mapSet, mapSet_of_get_none _ _ _ hfresh, mapDel,
      mapDel_of_get_none _ _ hfresh]
  · simp [SubmitResponse, h₂, hfresh]

/-- Witness for C1 at a concrete input: an empty running server, request id
"1-1", and two submissions for that id around a completed resolve. -/
theorem submitResponse_second_after_resolve_witness :
    mapGet stEmpty.pendingReqs "1-1" = none ∧
    resp200.requestId = "1-1" ∧ resp201.requestId = "1-1" ∧
    ((SubmitResponse (handleRequestRegister stEmpty "1-1" ev0) resp200).2 = .ok ∧
      waiterResolve (SubmitResponse (handleRequestRegister stEmpty "1-1" ev0) resp200).1 "1-1"
        = some (resp200, { stEmpty with events := stEmpty.events ++ [ev0] }) ∧
      SubmitResponse { stEmpty with events := stEmpty.events ++ [ev0] } resp201
        = ({ stEmpty with events := stEmpty.events ++ [ev0] }, .noPending "1-1")) :=
  ⟨rfl, rfl, rfl,
    submitResponse_second_after_resolve stEmpty "1-1" ev0 resp200 resp201 rfl rfl rfl⟩

/-- C2: after the waiting handler's timeout path has expired a request id
(deleting the slot and closing its channel under the pending mutex), any
later SubmitResponse for that id returns the "No pending request with ID"
result and changes nothing: it neither panics by sending on the closed
channel nor blocks forever. -/
theorem submitResponse_after_expire_noop
    (st : ServerState) (id : String) (resp : ASGIResponse)
    (h : resp.requestId = id) :
    SubmitResponse (waiterTimeout st id) resp = (waiterTimeout st id, .noPending id) ∧
    (SubmitResponse (waiterTimeout st id) resp).2 ≠ .panicSendClosed ∧
    (SubmitResponse (waiterTimeout st id) resp).2 ≠ .blockedForever := by
  subst h
  refine ⟨?_, ?_, ?_⟩ <;>
    simp [SubmitResponse, waiterTimeout, mapGet_mapDel_self]

/-- Witness for C2 at a concrete input: a server with one pending slot for
"1-1" that the handler expires, then a late submission for "1-1". -/
theorem submitResponse_after_expire_noop_witness :
    resp200.requestId = "1-1" ∧
    (SubmitResponse (waiterTimeout stOnePending "1-1") resp200
        = (waiterTimeout stOnePending "1-1", .noPending "1-1") ∧
      (SubmitResponse (waiterTimeout stOnePending "1-1") resp200).2 ≠ .panicSendClosed ∧
      (SubmitResponse (waiterTimeout stOnePending "1-1") resp200).2 ≠ .blockedForever) :=
  ⟨rfl, submitResponse_after_expire_noop stOnePending "1-1" resp200 rfl⟩

/-- C3 counterexample: the claim quantifies over every hand-off variant, but
the push-queue variant (src/unnamed/part_001) has no admission gate at all.
With the configured capacity of 1000 and 1000 requests already in flight, a
further request is still fully handed off — registered in the correlation
map (1001 simultaneously in flight) and enqueued into the event buffer —
without acquiring any token and without a 503 rejection. -/
theorem part001_admits_beyond_capacity :
    maxConcurrentRequests = 1000 ∧
    (part001_handleRequest_handoff
        ⟨true, List.replicate maxConcurrentRequests ("p", emptySlot), []⟩ "x"
        ev0).pendingReqs.length = maxConcurrentRequests + 1 ∧
    (part001_handleRequest_handoff
        ⟨true, List.replicate maxConcurrentRequests ("p", emptySlot), []⟩ "x"
        ev0).events = [ev0] := by
  refine ⟨rfl, ?_, ?_⟩
  · have h := mapGet_replicate_ne (α := Slot) maxConcurrentRequests "p" "x" emptySlot
      (by decide)
    simp [part001_handleRequest_handoff, mapPut, h]
  · simp [part001_handleRequest_handoff, pushEvent, eventsChCap]

/-- C3 amended: in the hand-off variants that have the request semaphore
(direct-callback, routed-callback and pull-queue), any sequence of
admission-gate operations keeps the occupancy at or below the capacity, a
request arriving at full occupancy is rejected with the 503 capacity
response after its admission timeout, and a request is admitted only by
taking a token while the occupancy is below capacity; the push-queue
variant has no gate and is exempt. -/
theorem gatedSemaphore_bounds_admission (cap : Nat) (ops : List SemOp) :
    semRun cap ops ≤ cap ∧
    (semRun cap ops = cap →
      gatedAdmission cap (semRun cap ops)
        = .capacityExceeded 503 "Server is at capacity, please try again later") ∧
    ∀ occ occ', gatedAdmission cap occ = .admitted occ' →
      occ < cap ∧ occ' = occ + 1 := by
  refine ⟨semFoldl_le cap ops 0 (Nat.zero_le cap), ?_, ?_⟩
  · intro h
    rw [h]
    simp [gatedAdmission]
  · intro occ occ' h
    by_cases hlt : occ < cap
    · simp [gatedAdmission, hlt] at h
      exact ⟨hlt, h.symm⟩
    · simp [gatedAdmission, hlt] at h

/-- Witness for the amended C3 at a concrete input: capacity 1000 and one
acquire operation. -/
theorem gatedSemaphore_bounds_admission_witness :
    semRun maxConcurrentRequests [SemOp.acquire] ≤ maxConcurrentRequests ∧
    (semRun maxConcurrentRequests [SemOp.acquire] = maxConcurrentRequests →
      gatedAdmission maxConcurrentRequests (semRun maxConcurrentRequests [SemOp.acquire])
        = .capacityExceeded 503 "Server is at capacity, please try again later") ∧
    ∀ occ occ', gatedAdmission maxConcurrentRequests occ = .admitted occ' →
      occ < maxConcurrentRequests ∧ occ' = occ + 1 :=
  gatedSemaphore_bounds_admission maxConcurrentRequests [SemOp.acquire]

/-- C4: the claim fails on the code.  When `server.Shutdown(ctx)` exceeds
its 5-second grace context — which happens whenever an in-flight request is
still waiting on its response channel past the grace period — StopServer
returns the shutdown-error string before the cleanup loop, so a
still-pending correlation slot survives with its channel open and its
waiter still blocked.  Evaluated here at the failing input: a running
server with one pending slot and a timed-out graceful shutdown. -/
theorem stopServer_graceExceeded_leaves_pending :
    stOnePending.serverRunning = true ∧
    StopServer stOnePending true
      = (stOnePending, "Error shutting down server: context deadline exceeded") ∧
    mapGet (StopServer stOnePending true).1.pendingReqs "1-1" = some emptySlot :=
  ⟨rfl, rfl, rfl⟩

/-- C5: the claim fails on the code.  In the direct-callback variant the
watchdog's timeout arm closes `responseChan` and replies 504 while the
callback goroutine is still running; when the callback eventually returns,
its send on the now-closed channel is a Go runtime panic ("send on closed
channel"), which terminates the whole server process — a single slow
request kills the server without any StopServer call. -/
theorem watchdogClose_then_callbackSend_panics :
    (watchdogTimeout responseChan0).2 = ⟨504, "Request processing timed out"⟩ ∧
    lateCallbackSend (watchdogTimeout responseChan0).1 (some "ok")
      = .panicSendOnClosed :=
  ⟨rfl, rfl⟩

/-- C6: submitting capacity-plus-one events into the empty push-queue buffer
with no consumer draining leaves exactly the last `eventsChCap` events: the
oldest event is evicted, the newest submitted event is still the newest
buffered one, and the buffer never grows beyond its capacity of 10000. -/
theorem pushQueue_evicts_oldest_keeps_newest (es : List ASGIEvent)
    (h : es.length = eventsChCap + 1) :
    es.foldl (pushEvent eventsChCap) [] = es.drop 1 ∧
    (es.foldl (pushEvent eventsChCap) []).length = eventsChCap ∧
    (es.foldl (pushEvent eventsChCap) []).getLast? = es.getLast? := by
  have hne : es ≠ [] := by
    intro he
    rw [he] at h
    simp [eventsChCap] at h
  have hfl : es.dropLast.length = eventsChCap := by
    simp [List.length_dropLast, h]
  have hsplit : es.dropLast ++ [es.getLast hne] = es :=
    List.dropLast_append_getLast hne
  have hmain : es.foldl (pushEvent eventsChCap) []
      = es.dropLast.drop 1 ++ [es.getLast hne] := by
    conv_lhs => rw [← hsplit]
    rw [List.foldl_append, foldl_pushEvent_of_le eventsChCap es.dropLast []
      (by simp [hfl])]
    simp [pushEvent, hfl]
  have hdropLast_ne : es.dropLast ≠ [] := by
    intro he
    rw [he] at hfl
    simp [eventsChCap] at hfl
  have hdrop : es.drop 1 = es.dropLast.drop 1 ++ [es.getLast hne] := by
    conv_lhs => rw [← hsplit]
    obtain ⟨a, l, hal⟩ := List.exists_cons_of_ne_nil hdropLast_ne
    rw [hal]
    simp
  refine ⟨by rw [hmain, hdrop], ?_, ?_⟩
  · rw [hmain]
    simp only [List.length_append, List.length_drop, List.length_cons,
      List.length_nil, hfl]
    simp [eventsChCap]
  · rw [hmain, List.getLast?_concat,
      List.getLast?_eq_getLast_of_ne_nil hne]

/-- Witness for C6 at a concrete input: 10001 copies of a sample event. -/
theorem pushQueue_evicts_oldest_keeps_newest_witness :
    (List.replicate (eventsChCap + 1) ev0).length = eventsChCap + 1 ∧
    ((List.replicate (eventsChCap + 1) ev0).foldl (pushEvent eventsChCap) []
        = (List.replicate (eventsChCap + 1) ev0).drop 1 ∧
      ((List.replicate (eventsChCap + 1) ev0).foldl (pushEvent eventsChCap) []).length
        = eventsChCap ∧
      ((List.replicate (eventsChCap + 1) ev0).foldl (pushEvent eventsChCap) []).getLast?
        = (List.replicate (eventsChCap + 1) ev0).getLast?) :=
  ⟨by simp, pushQueue_evicts_oldest_keeps_newest _ (by simp)⟩

/-- C7: the claim fails on the code.  RegisterEventCallback registers the
handler through `http.ServeMux.HandleFunc`, which panics on a duplicate
pattern ("http: multiple registrations for /foo"): a second registration
for an already-registered path crashes the process instead of replacing the
handler, so "last registration wins" does not hold.  Evaluated at the
failing input: a first registration for "/foo" succeeds, a second one for
"/foo" panics. -/
theorem registerEventCallback_duplicate_panics :
    RegisterEventCallback [] "/foo" 1
      = some ([("/foo", 1)], "Event callback registered for path: /foo") ∧
    RegisterEventCallback [("/foo", 1)] "/foo" 2 = none := by
  constructor
  · rfl
  · simp [RegisterEventCallback, muxHandleFunc, mapGet]

/-- C8 counterexample: two calls of createASGIEvent with identical raw
request content, the same request id, the same header iteration order and
the same body-read count, but made at different instants (`time.Now()`
reads 0 and 1), produce different Event values — the `time` field differs —
so the builder is not deterministic in the claimed sense. -/
theorem createASGIEvent_not_time_invariant :
    createASGIEvent req0 "1-1" 0 req0.headers 2
      ≠ createASGIEvent req0 "1-1" 1 req0.headers 2 := by
  intro hcontra
  have := congrArg ASGIEvent.time hcontra
  simp [createASGIEvent] at this

/-- C8 amended: two calls of createASGIEvent with identical raw request
content and the same request id produce Events that agree in every field
except those fed by the runtime at each call: the `time` stamp records
each call's clock reading; the `scope.headers` lists are permutations of
each other (Go randomizes the `range r.Header` iteration order per call,
with the host entry appended last either way); and the message bodies
coincide whenever the two single body Reads return the same byte count.
Every remaining field depends only on the request content and request
id. -/
theorem createASGIEvent_deterministic_up_to_environment
    (r : HTTPRequest) (id : String) (t₁ t₂ : Nat)
    (iter₁ iter₂ : List (String × List String)) (n₁ n₂ : Nat)
    (h₁ : iter₁.Perm r.headers) (h₂ : iter₂.Perm r.headers) :
    (createASGIEvent r id t₁ iter₁ n₁).type
      = (createASGIEvent r id t₂ iter₂ n₂).type ∧
    (createASGIEvent r id t₁ iter₁ n₁).requestId
      = (createASGIEvent r id t₂ iter₂ n₂).requestId ∧
    (createASGIEvent r id t₁ iter₁ n₁).scope.headers.Perm
      (createASGIEvent r id t₂ iter₂ n₂).scope.headers ∧
    { (createASGIEvent r id t₁ iter₁ n₁).scope with headers := [] }
      = { (createASGIEvent r id t₂ iter₂ n₂).scope with headers := [] } ∧
    (createASGIEvent r id t₁ iter₁ n₁).message.moreBody
      = (createASGIEvent r id t₂ iter₂ n₂).message.moreBody ∧
    (n₁ = n₂ →
      (createASGIEvent r id t₁ iter₁ n₁).message.body
        = (createASGIEvent r id t₂ iter₂ n₂).message.body) := by
  refine ⟨rfl, rfl, ?_, rfl, rfl, ?_⟩
  · exact getHeadersList_perm (h₁.trans h₂.symm) r.host
  · intro h
    rw [h]
    rfl

/-- Witness for the amended C8 at a concrete input: the same two-header
request enumerated in its two possible orders, clocks 0 and 1, and equal
body-read counts. -/
theorem createASGIEvent_deterministic_up_to_environment_witness :
    (req0.headers.Perm req0.headers ∧ req0HeadersSwapped.Perm req0.headers) ∧
    ((createASGIEvent req0 "1-1" 0 req0.headers 2).type
        = (createASGIEvent req0 "1-1" 1 req0HeadersSwapped 2).type ∧
      (createASGIEvent req0 "1-1" 0 req0.headers 2).requestId
        = (createASGIEvent req0 "1-1" 1 req0HeadersSwapped 2).requestId ∧
      (createASGIEvent req0 "1-1" 0 req0.headers 2).scope.headers.Perm
        (createASGIEvent req0 "1-1" 1 req0HeadersSwapped 2).scope.headers ∧
      { (createASGIEvent req0 "1-1" 0 req0.headers 2).scope with headers := [] }
        = { (createASGIEvent req0 "1-1" 1 req0HeadersSwapped 2).scope with
            headers := [] } ∧
      (createASGIEvent req0 "1-1" 0 req0.headers 2).message.moreBody
        = (createASGIEvent req0 "1-1" 1 req0HeadersSwapped 2).message.moreBody ∧
      (2 = 2 →
        (createASGIEvent req0 "1-1" 0 req0.headers 2).message.body
          = (createASGIEvent req0 "1-1" 1 req0HeadersSwapped 2).message.body)) :=
  ⟨⟨List.Perm.refl _, by decide⟩,
    createASGIEvent_deterministic_up_to_environment req0 "1-1" 0 1
      req0.headers req0HeadersSwapped 2 2 (List.Perm.refl _) (by decide)⟩

/-- C9: SubmitResponse with a request id that was never registered returns
the "No pending request with ID" error and returns the state unchanged —
the pending-request table, the event queue and every other waiter's slot
are exactly as before. -/
theorem submitResponse_unknown_id_noop (st : ServerState) (resp : ASGIResponse)
    (h : mapGet st.pendingReqs resp.requestId = none) :
    SubmitResponse st resp = (st, .noPending resp.requestId) := by
  simp [SubmitResponse, h]

/-- Witness for C9 at a concrete input: a server with one pending slot for
"1-1" receiving a submission for the never-registered id "9-9". -/
theorem submitResponse_unknown_id_noop_witness :
    mapGet stOnePending.pendingReqs respUnknown.requestId = none ∧
    SubmitResponse stOnePending respUnknown
      = (stOnePending, .noPending respUnknown.requestId) :=
  ⟨rfl, submitResponse_unknown_id_noop stOnePending respUnknown rfl⟩

/-- C10: run without interleaved operations on a semaphore occupancy of
`occ` out of capacity `cap`, GetConcurrentRequests reports exactly `occ`
tokens in use and leaves the semaphore occupancy exactly at `occ`: every
probe token inserted while counting the free slots is removed again before
it returns. -/
theorem getConcurrentRequests_snapshot (cap occ : Nat) (h : occ ≤ cap) :
    GetConcurrentRequests cap occ = (occ, occ) := by
  simp only [GetConcurrentRequests, gcrProbe_spec]
  rw [Prod.mk.injEq]
  constructor <;> omega

/-- Witness for C10 at a concrete input: 7 requests in flight out of the
configured capacity of 1000. -/
theorem getConcurrentRequests_snapshot_witness :
    7 ≤ maxConcurrentRequests ∧
    GetConcurrentRequests maxConcurrentRequests 7 = (7, 7) :=
  ⟨by decide, getConcurrentRequests_snapshot maxConcurrentRequests 7 (by decide)⟩

end Marily
